import Mathlib

/-!
# Verification of `gurobi_optimods/portfolio.py` (`MeanVariancePortfolio`)

Shallow embedding of `src/gurobi_optimods/portfolio.py`.  Numeric values are
modelled as rationals, vectors of length `n` as `Fin n → ℚ`, matrices as
`Fin n → Fin n → ℚ`.  The gurobipy model-building API (`addMVar`, `addConstr`,
`setObjective`) is embedded as a pure state transformer on a `GModel` record
that accumulates the variable declarations, the constraints and the objective,
in the order of the source's calls.  The external solver is a parameter
(an oracle from the built model to a status plus a candidate solution).

Python exceptions are embedded as `Except PyError`; a method body that cannot
raise returns plainly.
-/

namespace Portfolio

/-- Vectors of length `n` over ℚ (embedding of 1-d numpy arrays). -/
def Vec (n : ℕ) := Fin n → ℚ

/-- Square matrices over ℚ (embedding of 2-d numpy arrays). -/
def Mat (n : ℕ) := Fin n → Fin n → ℚ

/-- Python exceptions raised by the code under verification. -/
inductive PyError where
  | typeError (msg : String)
  /-- Accessing an attribute that was never assigned. -/
  | attributeError (msg : String)
  /-- The `assert False` branch of `_convert_result`. -/
  | assertionError
  deriving DecidableEq, Repr

/-! ## Variables of the formulations

Every decision variable the source ever creates is an MVar of shape `n`
with one of these names. -/

/-- The decision-variable vectors of the formulations (each of length `n`). -/
inductive VKind where
  | x | xLong | xShort | xBuy | xSell
  | bLong | bShort | bBuy | bSell
  deriving DecidableEq, Repr

/-- Lower bound of an MVar: gurobipy's `addMVar` defaults to `lb=0.0`;
`lb=-float("inf")` gives a free variable. -/
inductive LowerBound where
  | zero | negInf
  deriving DecidableEq, Repr

/-- Variable type of an MVar: continuous (default) or binary (`vtype="B"`). -/
inductive VType where
  | continuous | binary
  deriving DecidableEq, Repr

/-- A declared MVar: its name, its lower bound and its variable type. -/
structure VarDecl where
  kind : VKind
  lb : LowerBound
  vtype : VType
  deriving DecidableEq, Repr

/-! ## Constraints

One constructor per syntactic shape of `m.addConstr(...)` call in the source. -/

/-- The constraints the source adds.  `scalarEq ts r` is an equality between a
sum of scalar terms (each `(c, v)` standing for `c * v.sum()`) and a constant:
it embeds both `x.sum() == 1` (terms `[(1, x)]`) and the `investment == 1`
budget constraint of `efficient_portfolio`.  The vector constraints are
elementwise over the `n` assets. -/
inductive Constr (n : ℕ) where
  /-- `c₁·v₁.sum() + … + cₖ·vₖ.sum() == r`. -/
  | scalarEq (terms : List (ℚ × VKind)) (rhs : ℚ)
  /-- `c @ v >= rhs` (e.g. `mu @ x >= expected_return`). -/
  | linGe (c : Vec n) (v : VKind) (rhs : ℚ)
  /-- `v @ Q @ v <= rhs` (e.g. `x @ Sigma @ x <= max_risk`). -/
  | quadLe (Q : Mat n) (v : VKind) (rhs : ℚ)
  /-- `a - off == p - q` elementwise; `off = 0` embeds `x == x_long - x_short`,
  `off = initial_holdings` embeds `x - initial_holdings == x_buy - x_sell`. -/
  | diffEq (a : VKind) (off : Vec n) (p q : VKind)
  /-- `a <= c * b` elementwise (variable upper bound via indicator). -/
  | vubLe (a : VKind) (c : ℚ) (b : VKind)
  /-- `a >= c * b` elementwise (minimum trade size via indicator). -/
  | vlbGe (a : VKind) (c : ℚ) (b : VKind)
  /-- `a + b <= rhs` elementwise (indicator exclusivity). -/
  | pairLe (a b : VKind) (rhs : ℚ)
  /-- `v₁.sum() + … + vₖ.sum() <= rhs` (leverage / trade / position caps). -/
  | sumsLe (vs : List VKind) (rhs : ℚ)

/-- Objective of a formulation, always over the variable `x`. -/
inductive Objective (n : ℕ) where
  /-- minimize `x @ Q @ x` (`setObjective` default sense). -/
  | minQuad (Q : Mat n)
  /-- maximize `c @ x`. -/
  | maxLin (c : Vec n)
  /-- maximize `c @ x - 0.5 * γ * (x @ (Q @ x))`. -/
  | maxMeanVar (c : Vec n) (γ : ℚ) (Q : Mat n)

/-- The state of a gurobipy `Model` while the source builds it: declared
variables, added constraints, and the objective, each in call order. -/
structure GModel (n : ℕ) where
  vars : List VarDecl
  constrs : List (Constr n)
  objective : Option (Objective n)

/-- A fresh `gp.Model`. -/
def GModel.empty (n : ℕ) : GModel n := ⟨[], [], none⟩

/-- `m.addMVar(...)`: appends a variable declaration. -/
def GModel.addMVar (m : GModel n) (d : VarDecl) : GModel n :=
  { m with vars := m.vars ++ [d] }

/-- `m.addConstr(...)`: appends a constraint. -/
def GModel.addConstr (m : GModel n) (c : Constr n) : GModel n :=
  { m with constrs := m.constrs ++ [c] }

/-- `m.setObjective(...)`. -/
def GModel.setObjective (m : GModel n) (o : Objective n) : GModel n :=
  { m with objective := some o }

/-! ## Constructor and result conversion (`__init__`, `_convert_result`) -/

/-- The `Sigma` argument of the constructor: a labeled `pd.DataFrame`
(row labels plus numeric content), a plain `np.ndarray`, or any other
Python object (`other`). -/
inductive SigmaArg (n : ℕ) where
  | dataFrame (index : List String) (mat : Mat n)
  | ndarray (mat : Mat n)
  | other

/-- The `mu` argument of the constructor: a labeled `pd.Series`
(index plus numeric content), a plain `np.ndarray`, or any other object. -/
inductive MuArg (n : ℕ) where
  | series (index : List String) (vec : Vec n)
  | ndarray (vec : Vec n)
  | other

/-- The attributes of a constructed `MeanVariancePortfolio` instance.
`index = none` embeds "the attribute `self.index` was never assigned". -/
structure PortfolioState (n : ℕ) where
  resultType : String
  index : Option (List String)
  covariance : Mat n
  mu : Vec n

/-- The `mu` branch of `MeanVariancePortfolio.__init__`: in both of its
non-raising arms it assigns `self.resultType`, overwriting the value the
`Sigma` branch stored. -/
def initMu (index : Option (List String)) (covariance : Mat n)
    (mu : MuArg n) : Except PyError (PortfolioState n) :=
  match mu with
  | .series _ v => .ok ⟨"pandas", index, covariance, v⟩
  | .ndarray v => .ok ⟨"numpy", index, covariance, v⟩
  | .other => .error (.typeError "Incompatible type of mu")

/-- `MeanVariancePortfolio.__init__`.  The `Sigma` branch runs first (it may
raise and then the `mu` branch is never reached); `self.index` is assigned
only in the `DataFrame` arm; then the `mu` branch (`initMu`) runs. -/
def init (Sigma : SigmaArg n) (mu : MuArg n) :
    Except PyError (PortfolioState n) :=
  match Sigma with
  | .dataFrame idx mat => initMu (some idx) mat mu
  | .ndarray mat => initMu none mat mu
  | .other => .error (.typeError "Incompatible type of Sigma")

/-- A decoded solution vector: plain (`numpy`) or label-indexed (`pandas`). -/
inductive ConvertedResult (n : ℕ) where
  | plain (x : Vec n)
  | labeled (index : List String) (x : Vec n)

/-- `MeanVariancePortfolio._convert_result`.  In the `"pandas"` arm the source
reads `self.index`; if that attribute was never assigned, Python raises
`AttributeError`. -/
def convert_result (s : PortfolioState n) (x : Vec n) :
    Except PyError (ConvertedResult n) :=
  if s.resultType = "numpy" then
    .ok (.plain x)
  else if s.resultType = "pandas" then
    match s.index with
    | some idx => .ok (.labeled idx x)
    | none =>
        .error (.attributeError
          "'MeanVariancePortfolio' object has no attribute 'index'")
  else
    .error .assertionError

/-! ## The three formulation builders -/

/-- The formulation built by `minimize_risk(expected_return)`:
`addMVar` (default `lb=0`), `x.sum() == 1`, `mu @ x >= expected_return`,
objective `x @ Sigma @ x` (default minimize sense). -/
def minimize_risk_model (Sigma : Mat n) (mu : Vec n) (expected_return : ℚ) :
    GModel n :=
  let m := GModel.empty n
  let m := m.addMVar ⟨.x, .zero, .continuous⟩
  let m := m.addConstr (.scalarEq [(1, .x)] 1)
  let m := m.addConstr (.linGe mu .x expected_return)
  let m := m.setObjective (.minQuad Sigma)
  m

/-- The formulation built by `maximize_return(max_risk)`:
`addMVar` (default `lb=0`), `x.sum() == 1`, `x @ Sigma @ x <= max_risk`,
objective maximize `mu @ x`. -/
def maximize_return_model (Sigma : Mat n) (mu : Vec n) (max_risk : ℚ) :
    GModel n :=
  let m := GModel.empty n
  let m := m.addMVar ⟨.x, .zero, .continuous⟩
  let m := m.addConstr (.scalarEq [(1, .x)] 1)
  let m := m.addConstr (.quadLe Sigma .x max_risk)
  let m := m.setObjective (.maxLin mu)
  m

/-- `if p is not None: m.addConstr(f(p))` — a conditionally added constraint. -/
def GModel.addConstrIf (m : GModel n) (o : Option ℚ) (f : ℚ → Constr n) :
    GModel n :=
  match o with
  | some v => m.addConstr (f v)
  | none => m

/-- `if p is not None: investment += p * v.sum()` — a conditionally appended
term of the `investment` expression. -/
def appendTermIf (ts : List (ℚ × VKind)) (o : Option ℚ) (v : VKind) :
    List (ℚ × VKind) :=
  match o with
  | some c => ts ++ [(c, v)]
  | none => ts

/-- The formulation built by `efficient_portfolio`.  Parameters default to
`None` (`Option.none`); `max_total_short` defaults to `0.0` and
`initial_holdings` to the zero vector.  The body mirrors the source's call
order exactly: variable declarations, unconditional constraints, the
conditional `max_trades`/`max_positions` caps, the incremental build of the
`investment` expression (a term is appended only when the corresponding
parameter is supplied), the conditional `min_long`/`min_short` bounds, the
budget equality, and the objective. -/
def efficient_portfolio_model (Sigma : Mat n) (mu : Vec n) (gamma : ℚ)
    (max_trades max_positions fees_buy fees_sell costs_buy costs_sell
      min_long min_short : Option ℚ)
    (max_total_short : ℚ) (initial_holdings : Option (Vec n)) : GModel n :=
  -- `if initial_holdings is None: initial_holdings = np.zeros(...)`
  let h : Vec n := initial_holdings.getD fun _ => 0
  let m := GModel.empty n
  let m := m.addMVar ⟨.x, .negInf, .continuous⟩      -- lb=-float("inf")
  let m := m.addMVar ⟨.xLong, .zero, .continuous⟩
  let m := m.addMVar ⟨.xShort, .zero, .continuous⟩
  let m := m.addConstr (.diffEq .x (fun _ => 0) .xLong .xShort)
  let m := m.addMVar ⟨.xBuy, .zero, .continuous⟩
  let m := m.addMVar ⟨.xSell, .zero, .continuous⟩
  let m := m.addConstr (.diffEq .x h .xBuy .xSell)
  let m := m.addMVar ⟨.bLong, .zero, .binary⟩
  let m := m.addMVar ⟨.bShort, .zero, .binary⟩
  let m := m.addMVar ⟨.bBuy, .zero, .binary⟩
  let m := m.addMVar ⟨.bSell, .zero, .binary⟩
  let m := m.addConstr (.vubLe .xLong (1 + max_total_short) .bLong)
  let m := m.addConstr (.vubLe .xShort max_total_short .bShort)
  let m := m.addConstr (.vubLe .xBuy (1 + max_total_short) .bBuy)
  let m := m.addConstr (.vubLe .xSell (1 + max_total_short) .bSell)
  let m := m.addConstr (.pairLe .bLong .bShort 1)
  let m := m.addConstr (.pairLe .bBuy .bSell 1)
  let m := m.addConstr (.sumsLe [.xShort] max_total_short)
  let investment : List (ℚ × VKind) := [(1, .x)]    -- investment = x.sum()
  let m := m.addConstrIf max_trades (fun k => .sumsLe [.bBuy, .bSell] k)
  let m := m.addConstrIf max_positions (fun k => .sumsLe [.bLong, .bShort] k)
  let investment := appendTermIf investment fees_buy .bBuy
  let investment := appendTermIf investment fees_sell .bSell
  let investment := appendTermIf investment costs_buy .xBuy
  let investment := appendTermIf investment costs_sell .xSell
  let m := m.addConstrIf min_long (fun c => .vlbGe .xBuy c .bBuy)
  let m := m.addConstrIf min_short (fun c => .vlbGe .xSell c .bSell)
  let m := m.addConstr (.scalarEq investment 1)
  let m := m.setObjective (.maxMeanVar mu gamma Sigma)
  m

/-! ## Solver interface and the full method bodies

The external solver engine is not part of this repository: each solve method
builds a model, calls `m.optimize()`, and then reads `m.Status` and (when
optimal) `x.X`.  We embed the solver as an oracle mapping the built model to a
terminal status plus candidate values for the variable `x`. -/

/-- Terminal status reported by the solver after `m.optimize()`. -/
inductive Status where
  | optimal | infeasible | unbounded | timeLimit | interrupted
  deriving DecidableEq, Repr

/-- Outcome of one `m.optimize()` call: the status and the values `x.X`
(meaningful only when `status = optimal`). -/
structure SolveOutcome (n : ℕ) where
  status : Status
  xVal : Vec n

/-- A solver oracle: for every built model, the outcome of optimizing it. -/
def Oracle (n : ℕ) := GModel n → SolveOutcome n

/-- The tail every solve method shares: optimize the built model, and
`if m.Status == GRB.OPTIMAL: return self._convert_result(x.X)` — otherwise
the method falls off the end and returns `None`.  A raise inside
`_convert_result` propagates. -/
def runWith (s : PortfolioState n) (m : GModel n) (oracle : Oracle n) :
    Except PyError (Option (ConvertedResult n)) :=
  let out := oracle m
  if out.status = .optimal then
    match convert_result s out.xVal with
    | .ok r => .ok (some r)        -- `return self._convert_result(x.X)`
    | .error e => .error e         -- the exception propagates
  else
    .ok none                       -- fall through: implicit `return None`

/-- The body of `minimize_risk`. -/
def minimize_risk_run (s : PortfolioState n) (expected_return : ℚ)
    (oracle : Oracle n) : Except PyError (Option (ConvertedResult n)) :=
  runWith s (minimize_risk_model s.covariance s.mu expected_return) oracle

/-- The body of `maximize_return`, same result contract as `minimize_risk`. -/
def maximize_return_run (s : PortfolioState n) (max_risk : ℚ)
    (oracle : Oracle n) : Except PyError (Option (ConvertedResult n)) :=
  runWith s (maximize_return_model s.covariance s.mu max_risk) oracle

/-- The body of `efficient_portfolio`, same result contract. -/
def efficient_portfolio_run (s : PortfolioState n) (gamma : ℚ)
    (max_trades max_positions fees_buy fees_sell costs_buy costs_sell
      min_long min_short : Option ℚ)
    (max_total_short : ℚ) (initial_holdings : Option (Vec n))
    (oracle : Oracle n) : Except PyError (Option (ConvertedResult n)) :=
  runWith s (efficient_portfolio_model s.covariance s.mu gamma
    max_trades max_positions fees_buy fees_sell costs_buy costs_sell
    min_long min_short max_total_short initial_holdings) oracle

/-- `runWith` when the solver reports a non-optimal status. -/
theorem runWith_nonoptimal (s : PortfolioState n) (m : GModel n)
    (oracle : Oracle n) (h : (oracle m).status ≠ .optimal) :
    runWith s m oracle = .ok none := by
  unfold runWith
  rw [if_neg h]

/-- `runWith` when the solver reports optimal and decoding succeeds. -/
theorem runWith_optimal_ok (s : PortfolioState n) (m : GModel n)
    (oracle : Oracle n) (h : (oracle m).status = .optimal)
    (r : ConvertedResult n)
    (hc : convert_result s (oracle m).xVal = .ok r) :
    runWith s m oracle = .ok (some r) := by
  unfold runWith
  rw [if_pos h, hc]

/-- `runWith` when the solver reports optimal and decoding raises. -/
theorem runWith_optimal_error (s : PortfolioState n) (m : GModel n)
    (oracle : Oracle n) (h : (oracle m).status = .optimal) (e : PyError)
    (hc : convert_result s (oracle m).xVal = .error e) :
    runWith s m oracle = .error e := by
  unfold runWith
  rw [if_pos h, hc]

/-- `minimize_risk` as a method call on the object: the pair of the returned
value and the instance state after the call.  The method body contains no
attribute assignment (`self.… = …`), so the post-state is the input state. -/
def minimize_risk_call (s : PortfolioState n) (expected_return : ℚ)
    (oracle : Oracle n) :
    Except PyError (Option (ConvertedResult n)) × PortfolioState n :=
  (minimize_risk_run s expected_return oracle, s)

/-- `maximize_return` as a method call (result, post-state); the body never
assigns an attribute. -/
def maximize_return_call (s : PortfolioState n) (max_risk : ℚ)
    (oracle : Oracle n) :
    Except PyError (Option (ConvertedResult n)) × PortfolioState n :=
  (maximize_return_run s max_risk oracle, s)

/-- `efficient_portfolio` as a method call (result, post-state); the body never
assigns an attribute (it rebinds only the local `initial_holdings`). -/
def efficient_portfolio_call (s : PortfolioState n) (gamma : ℚ)
    (max_trades max_positions fees_buy fees_sell costs_buy costs_sell
      min_long min_short : Option ℚ)
    (max_total_short : ℚ) (initial_holdings : Option (Vec n))
    (oracle : Oracle n) :
    Except PyError (Option (ConvertedResult n)) × PortfolioState n :=
  (efficient_portfolio_run s gamma max_trades max_positions fees_buy fees_sell
    costs_buy costs_sell min_long min_short max_total_short initial_holdings
    oracle, s)

/-! ## Satisfaction semantics

An assignment gives every declared vector a value; a model is feasible at an
assignment when every variable respects its bound/type and every constraint
holds.  The objective plays no role in feasibility. -/

/-- An assignment of concrete values to every decision-variable vector. -/
structure Assign (n : ℕ) where
  vec : VKind → Fin n → ℚ

/-- The bound/type conditions of one variable declaration. -/
def VarDecl.sat (a : Assign n) (d : VarDecl) : Prop :=
  (d.lb = .zero → ∀ i, 0 ≤ a.vec d.kind i) ∧
  (d.vtype = .binary → ∀ i, a.vec d.kind i = 0 ∨ a.vec d.kind i = 1)

/-- Value of a scalar term list: `Σ (c, v) ∈ ts, c * v.sum()`. -/
def termsVal (a : Assign n) (ts : List (ℚ × VKind)) : ℚ :=
  (ts.map (fun t => t.1 * ∑ i, a.vec t.2 i)).sum

/-- Satisfaction of one constraint. -/
def Constr.sat (a : Assign n) : Constr n → Prop
  | .scalarEq ts r => termsVal a ts = r
  | .linGe c v r => r ≤ ∑ i, c i * a.vec v i
  | .quadLe Q v r => (∑ i, ∑ j, a.vec v i * Q i j * a.vec v j) ≤ r
  | .diffEq v off p q => ∀ i, a.vec v i - off i = a.vec p i - a.vec q i
  | .vubLe v c b => ∀ i, a.vec v i ≤ c * a.vec b i
  | .vlbGe v c b => ∀ i, c * a.vec b i ≤ a.vec v i
  | .pairLe v w r => ∀ i, a.vec v i + a.vec w i ≤ r
  | .sumsLe vs r => (vs.map (fun v => ∑ i, a.vec v i)).sum ≤ r

instance (a : Assign n) (d : VarDecl) : Decidable (d.sat a) :=
  inferInstanceAs (Decidable (_ ∧ _))

instance (a : Assign n) : (c : Constr n) → Decidable (c.sat a)
  | .scalarEq _ _ => inferInstanceAs (Decidable (_ = _))
  | .linGe _ _ _ => inferInstanceAs (Decidable (_ ≤ _))
  | .quadLe _ _ _ => inferInstanceAs (Decidable (_ ≤ _))
  | .diffEq _ _ _ _ => inferInstanceAs (Decidable (∀ _, _ = _))
  | .vubLe _ _ _ => inferInstanceAs (Decidable (∀ _, _ ≤ _))
  | .vlbGe _ _ _ => inferInstanceAs (Decidable (∀ _, _ ≤ _))
  | .pairLe _ _ _ => inferInstanceAs (Decidable (∀ _, _ ≤ _))
  | .sumsLe _ _ => inferInstanceAs (Decidable (_ ≤ _))

/-- Feasibility of a built model at an assignment: all variable bounds and all
constraints hold. -/
def Feasible (a : Assign n) (m : GModel n) : Prop :=
  (∀ d ∈ m.vars, d.sat a) ∧ (∀ c ∈ m.constrs, c.sat a)

instance (a : Assign n) (m : GModel n) : Decidable (Feasible a m) :=
  inferInstanceAs (Decidable (_ ∧ _))

/-! ## Shape of the built models -/

/-- The list a conditional `m.addConstr` contributes: one constraint when the
parameter is supplied, nothing when it is absent. -/
def optConstr (o : Option ℚ) (f : ℚ → Constr n) : List (Constr n) :=
  match o with
  | some v => [f v]
  | none => []

/-- The list a conditional `investment +=` contributes. -/
def optTerm (o : Option ℚ) (v : VKind) : List (ℚ × VKind) :=
  match o with
  | some c => [(c, v)]
  | none => []

/-- The terms of the `investment` expression of `efficient_portfolio`:
`x.sum()` plus one term per supplied fee/cost parameter, in source order. -/
def investTerms (fees_buy fees_sell costs_buy costs_sell : Option ℚ) :
    List (ℚ × VKind) :=
  [((1 : ℚ), VKind.x)]
    ++ optTerm fees_buy .bBuy
    ++ optTerm fees_sell .bSell
    ++ optTerm costs_buy .xBuy
    ++ optTerm costs_sell .xSell

/-- The variable declarations of `efficient_portfolio`, in source order. -/
def efficientVars : List VarDecl :=
  [⟨.x, .negInf, .continuous⟩,
   ⟨.xLong, .zero, .continuous⟩,
   ⟨.xShort, .zero, .continuous⟩,
   ⟨.xBuy, .zero, .continuous⟩,
   ⟨.xSell, .zero, .continuous⟩,
   ⟨.bLong, .zero, .binary⟩,
   ⟨.bShort, .zero, .binary⟩,
   ⟨.bBuy, .zero, .binary⟩,
   ⟨.bSell, .zero, .binary⟩]

/-- The constraints of `efficient_portfolio`, in source order: the
unconditional block, then the conditional caps and minimum-size constraints,
then the budget equality. -/
def efficientConstrs (h : Vec n) (mt mp ml ms fb fs cb cs : Option ℚ)
    (S : ℚ) : List (Constr n) :=
  [.diffEq .x (fun _ => 0) .xLong .xShort,
   .diffEq .x h .xBuy .xSell,
   .vubLe .xLong (1 + S) .bLong,
   .vubLe .xShort S .bShort,
   .vubLe .xBuy (1 + S) .bBuy,
   .vubLe .xSell (1 + S) .bSell,
   .pairLe .bLong .bShort 1,
   .pairLe .bBuy .bSell 1,
   .sumsLe [.xShort] S]
    ++ optConstr mt (fun k => .sumsLe [.bBuy, .bSell] k)
    ++ optConstr mp (fun k => .sumsLe [.bLong, .bShort] k)
    ++ optConstr ml (fun c => .vlbGe .xBuy c .bBuy)
    ++ optConstr ms (fun c => .vlbGe .xSell c .bSell)
    ++ [.scalarEq (investTerms fb fs cb cs) 1]

theorem GModel.addConstrIf_eq (m : GModel n) (o : Option ℚ)
    (f : ℚ → Constr n) :
    m.addConstrIf o f = ⟨m.vars, m.constrs ++ optConstr o f, m.objective⟩ := by
  cases o <;> simp [addConstrIf, addConstr, optConstr]

theorem appendTermIf_eq (ts : List (ℚ × VKind)) (o : Option ℚ) (v : VKind) :
    appendTermIf ts o v = ts ++ optTerm o v := by
  cases o <;> simp [appendTermIf, optTerm]

/-- Characterization of the model `efficient_portfolio` builds, for all
parameter combinations. -/
theorem efficient_model_eq (Sigma : Mat n) (mu : Vec n) (gamma : ℚ)
    (mt mp fb fs cb cs ml ms : Option ℚ) (S : ℚ) (ih : Option (Vec n)) :
    efficient_portfolio_model Sigma mu gamma mt mp fb fs cb cs ml ms S ih =
      ⟨efficientVars,
       efficientConstrs (ih.getD fun _ => 0) mt mp ml ms fb fs cb cs S,
       some (.maxMeanVar mu gamma Sigma)⟩ := by
  simp only [efficient_portfolio_model, GModel.empty, GModel.addMVar,
    GModel.addConstr, GModel.setObjective, GModel.addConstrIf_eq,
    appendTermIf_eq, efficientVars, efficientConstrs, investTerms,
    List.nil_append, List.cons_append, List.append_assoc, List.append_nil]

/-! ## Helper lemmas about `convert_result` -/

theorem convert_result_numpy (s : PortfolioState n) (h : s.resultType = "numpy")
    (xv : Vec n) : convert_result s xv = .ok (.plain xv) := by
  unfold convert_result
  rw [h, if_pos rfl]

theorem convert_result_pandas (s : PortfolioState n)
    (h : s.resultType = "pandas") (idx : List String) (hi : s.index = some idx)
    (xv : Vec n) : convert_result s xv = .ok (.labeled idx xv) := by
  unfold convert_result
  rw [h, hi, if_neg (by decide), if_pos rfl]

theorem convert_result_pandas_noindex (s : PortfolioState n)
    (h : s.resultType = "pandas") (hi : s.index = none) (xv : Vec n) :
    convert_result s xv =
      .error (.attributeError
        "'MeanVariancePortfolio' object has no attribute 'index'") := by
  unfold convert_result
  rw [h, hi, if_neg (by decide), if_pos rfl]

/-! ## Concrete instances used by witnesses and counterexamples -/

/-- A concrete 2-asset covariance matrix (values are irrelevant to
feasibility). -/
def Sigma2 : Mat 2 := fun _ _ => 0

/-- A concrete 2-asset return vector. -/
def mu2 : Vec 2 := fun _ => 0

/-! ## Claims -/

/-- C1 (counterexample): contrary to the claim, in `minimize_risk` and
`maximize_return` the weight variable `x` is NOT free in sign: the source
calls `addMVar` without `lb`, and gurobipy's default lower bound is `0.0`.
At a concrete instance neither model declares `x` with lower bound `-∞`. -/
theorem minRisk_x_not_free_cex :
    VarDecl.mk .x .negInf .continuous ∉
        (minimize_risk_model Sigma2 mu2 1).vars ∧
      VarDecl.mk .x .negInf .continuous ∉
        (maximize_return_model Sigma2 mu2 1).vars ∧
      VarDecl.mk .x .zero .continuous ∈
        (minimize_risk_model Sigma2 mu2 1).vars := by
  refine ⟨?_, ?_, ?_⟩ <;> decide

/-- C1 (amended): in `minimize_risk` and `maximize_return` the weight
variable `x` carries the `addMVar` default lower bound `0` (it is not free);
the formulation imposes exactly `sum(x) = 1` together with
`μᵀx ≥ expected_return` (objective: minimize `xᵀΣx`) respectively
`xᵀΣx ≤ max_risk` (objective: maximize `μᵀx`), and no other constraint or
bound restricts `x`. -/
theorem simple_models_characterization (Sigma : Mat n) (mu : Vec n)
    (expected_return max_risk : ℚ) :
    minimize_risk_model Sigma mu expected_return =
        ⟨[⟨.x, .zero, .continuous⟩],
         [.scalarEq [(1, .x)] 1, .linGe mu .x expected_return],
         some (.minQuad Sigma)⟩ ∧
      maximize_return_model Sigma mu max_risk =
        ⟨[⟨.x, .zero, .continuous⟩],
         [.scalarEq [(1, .x)] 1, .quadLe Sigma .x max_risk],
         some (.maxLin mu)⟩ :=
  ⟨rfl, rfl⟩

/-- C8: construction raises a `TypeError` if and only if `Sigma` is neither a
`DataFrame` nor an `ndarray`, or `mu` is neither a `Series` nor an `ndarray`;
every construction failure is a `TypeError`, and on failure no instance is
produced (`init` yields no state). -/
theorem init_typeError_iff (Sigma : SigmaArg n) (mu : MuArg n) :
    ((∃ e, init Sigma mu = .error e) ↔
        (Sigma = .other ∨ mu = .other)) ∧
      (∀ e, init Sigma mu = .error e → ∃ msg, e = .typeError msg) := by
  cases Sigma <;> cases mu <;> simp [init, initMu]

/-- C8 (witness): `init` at a concrete ill-typed `Sigma`. -/
theorem init_typeError_iff_witness :
    ((∃ e, init (SigmaArg.other : SigmaArg 2) (MuArg.ndarray mu2) = .error e) ↔
        ((SigmaArg.other : SigmaArg 2) = .other ∨ MuArg.ndarray mu2 = .other)) ∧
      (∀ e, init (SigmaArg.other : SigmaArg 2) (MuArg.ndarray mu2) = .error e →
        ∃ msg, e = .typeError msg) :=
  init_typeError_iff SigmaArg.other (MuArg.ndarray mu2)

/-- C2 (counterexample): contrary to the claim, supplying a labeled `Sigma`
(a `DataFrame`) together with a plain `mu` (an `ndarray`) does NOT put the
instance in labeled mode: the `mu` branch of `__init__` overwrites
`self.resultType` with `"numpy"`. -/
theorem resultType_overwritten_cex :
    (init (SigmaArg.dataFrame ["A", "B"] Sigma2)
          (MuArg.ndarray mu2)).map (fun s => s.resultType) =
        .ok "numpy" ∧
      ("numpy" : String) ≠ "pandas" := by
  exact ⟨rfl, by decide⟩

/-- C2 (amended): the result-shape mode is `"pandas"` (labeled) if and only if
`mu` is supplied in labeled form — the `mu` branch of `__init__` overwrites
the mode the `Sigma` branch stored, so a labeled `Sigma` with a plain `mu`
yields plain mode.  When both `Sigma` and `mu` are labeled, every successful
decode returns a label-indexed vector carrying `Sigma`'s row labels. -/
theorem resultType_determined_by_mu (Sigma : SigmaArg n) (mu : MuArg n)
    (s : PortfolioState n) (h : init Sigma mu = .ok s) :
    (s.resultType = "pandas" ↔ ∃ idx v, mu = .series idx v) ∧
      (∀ idxS mat idxM v, Sigma = .dataFrame idxS mat → mu = .series idxM v →
        ∀ xv, convert_result s xv = .ok (.labeled idxS xv)) := by
  cases Sigma with
  | dataFrame idxS mat =>
    cases mu with
    | series idxM v =>
      simp only [init, initMu] at h
      injection h with h
      subst h
      refine ⟨⟨fun _ => ⟨idxM, v, rfl⟩, fun _ => rfl⟩, ?_⟩
      intro idxS' mat' idxM' v' hS hM xv
      injection hS with h1 h2
      subst h1
      exact convert_result_pandas _ rfl _ rfl xv
    | ndarray v =>
      simp only [init, initMu] at h
      injection h with h
      subst h
      refine ⟨⟨?_, ?_⟩, ?_⟩
      · intro hh
        have hne : ("numpy" : String) ≠ "pandas" := by decide
        exact absurd hh hne
      · intro hh
        obtain ⟨idx, w, hw⟩ := hh
        exact (nomatch hw)
      · intro idxS' mat' idxM' v' hS hM xv
        exact (nomatch hM)
    | other =>
      simp only [init, initMu] at h
      exact (nomatch h)
  | ndarray mat =>
    cases mu with
    | series idxM v =>
      simp only [init, initMu] at h
      injection h with h
      subst h
      refine ⟨⟨fun _ => ⟨idxM, v, rfl⟩, fun _ => rfl⟩, ?_⟩
      intro idxS' mat' idxM' v' hS hM xv
      exact (nomatch hS)
    | ndarray v =>
      simp only [init, initMu] at h
      injection h with h
      subst h
      refine ⟨⟨?_, ?_⟩, ?_⟩
      · intro hh
        have hne : ("numpy" : String) ≠ "pandas" := by decide
        exact absurd hh hne
      · intro hh
        obtain ⟨idx, w, hw⟩ := hh
        exact (nomatch hw)
      · intro idxS' mat' idxM' v' hS hM xv
        exact (nomatch hS)
    | other =>
      simp only [init, initMu] at h
      exact (nomatch h)
  | other =>
    simp only [init] at h
    exact (nomatch h)

/-- C2 (witness): the amended statement at a labeled `Sigma` and labeled
`mu`. -/
theorem resultType_determined_by_mu_witness :
    ((PortfolioState.mk "pandas" (some ["A", "B"]) Sigma2 mu2).resultType =
          "pandas" ↔
        ∃ idx v, MuArg.series ["A", "B"] mu2 = .series idx v) ∧
      (∀ idxS mat idxM v,
        SigmaArg.dataFrame ["A", "B"] Sigma2 = .dataFrame idxS mat →
        MuArg.series ["A", "B"] mu2 = .series idxM v →
        ∀ xv, convert_result
          (PortfolioState.mk "pandas" (some ["A", "B"]) Sigma2 mu2) xv =
          .ok (.labeled idxS xv)) :=
  resultType_determined_by_mu (SigmaArg.dataFrame ["A", "B"] Sigma2)
    (MuArg.series ["A", "B"] mu2) _ rfl

/-- C10: constructing with a plain `Sigma` (`ndarray`) and a labeled `mu`
(`Series`) succeeds, sets the result mode to `"pandas"` but never records a
label index; consequently the result decoding of any subsequent solve that
reaches optimal status raises an `AttributeError` instead of returning a
labeled vector. -/
theorem mu_labeled_sigma_plain_decode_fails (mat : Mat n) (idx : List String)
    (v : Vec n) :
    ∃ s, init (SigmaArg.ndarray mat) (MuArg.series idx v) = .ok s ∧
      s.resultType = "pandas" ∧
      s.index = none ∧
      (∀ (oracle : Oracle n) (r : ℚ),
        (oracle (minimize_risk_model s.covariance s.mu r)).status = .optimal →
        minimize_risk_run s r oracle =
          .error (.attributeError
            "'MeanVariancePortfolio' object has no attribute 'index'")) ∧
      (∀ (oracle : Oracle n) (mr : ℚ),
        (oracle (maximize_return_model s.covariance s.mu mr)).status =
            .optimal →
        maximize_return_run s mr oracle =
          .error (.attributeError
            "'MeanVariancePortfolio' object has no attribute 'index'")) ∧
      (∀ (oracle : Oracle n) (gamma : ℚ)
        (mt mp fb fs cb cs ml ms : Option ℚ) (S : ℚ) (ih : Option (Vec n)),
        (oracle (efficient_portfolio_model s.covariance s.mu gamma mt mp fb fs
            cb cs ml ms S ih)).status = .optimal →
        efficient_portfolio_run s gamma mt mp fb fs cb cs ml ms S ih oracle =
          .error (.attributeError
            "'MeanVariancePortfolio' object has no attribute 'index'")) := by
  refine ⟨⟨"pandas", none, mat, v⟩, rfl, rfl, rfl, ?_, ?_, ?_⟩
  · intro oracle r hopt
    exact runWith_optimal_error _ _ _ hopt _
      (convert_result_pandas_noindex _ rfl rfl _)
  · intro oracle mr hopt
    exact runWith_optimal_error _ _ _ hopt _
      (convert_result_pandas_noindex _ rfl rfl _)
  · intro oracle gamma mt mp fb fs cb cs ml ms S ih hopt
    exact runWith_optimal_error _ _ _ hopt _
      (convert_result_pandas_noindex _ rfl rfl _)

/-- C10 (witness): the statement instantiated at a concrete plain `Sigma` and
labeled `mu`. -/
theorem mu_labeled_sigma_plain_decode_fails_witness :
    ∃ s, init (SigmaArg.ndarray Sigma2) (MuArg.series ["A", "B"] mu2) =
        .ok s ∧
      s.resultType = "pandas" ∧
      s.index = none ∧
      (∀ (oracle : Oracle 2) (r : ℚ),
        (oracle (minimize_risk_model s.covariance s.mu r)).status = .optimal →
        minimize_risk_run s r oracle =
          .error (.attributeError
            "'MeanVariancePortfolio' object has no attribute 'index'")) ∧
      (∀ (oracle : Oracle 2) (mr : ℚ),
        (oracle (maximize_return_model s.covariance s.mu mr)).status =
            .optimal →
        maximize_return_run s mr oracle =
          .error (.attributeError
            "'MeanVariancePortfolio' object has no attribute 'index'")) ∧
      (∀ (oracle : Oracle 2) (gamma : ℚ)
        (mt mp fb fs cb cs ml ms : Option ℚ) (S : ℚ) (ih : Option (Vec 2)),
        (oracle (efficient_portfolio_model s.covariance s.mu gamma mt mp fb fs
            cb cs ml ms S ih)).status = .optimal →
        efficient_portfolio_run s gamma mt mp fb fs cb cs ml ms S ih oracle =
          .error (.attributeError
            "'MeanVariancePortfolio' object has no attribute 'index'")) :=
  mu_labeled_sigma_plain_decode_fails Sigma2 ["A", "B"] mu2

/-- A concrete plain-mode instance state over 2 assets. -/
def sPlain : PortfolioState 2 := ⟨"numpy", none, Sigma2, mu2⟩

/-- A concrete solver oracle answering `optimal` with solution `(1, 1)`. -/
def oracleOpt : Oracle 2 := fun _ => ⟨.optimal, fun _ => 1⟩

/-- C7 (counterexample): contrary to the claim, a solve call can raise: on an
instance constructed from a plain `Sigma` and a labeled `mu` (a real
constructor outcome, shown by the first conjunct), an optimal-status solve
raises an `AttributeError` instead of returning the decoded vector. -/
theorem solve_raises_on_mislabeled_cex :
    init (SigmaArg.ndarray Sigma2) (MuArg.series ["X", "Y"] mu2) =
        .ok ⟨"pandas", none, Sigma2, mu2⟩ ∧
      minimize_risk_run (⟨"pandas", none, Sigma2, mu2⟩ : PortfolioState 2) 1
          (fun _ => ⟨.optimal, fun _ => 1⟩) =
        .error (.attributeError
          "'MeanVariancePortfolio' object has no attribute 'index'") := by
  constructor
  · rfl
  · exact runWith_optimal_error _ _ _ rfl _
      (convert_result_pandas_noindex _ rfl rfl _)

/-- C7 (amended): for every solve call on an instance whose decode data is
consistent — result mode `"numpy"`, or `"pandas"` with a recorded index
(that is, any constructible instance except plain `Sigma` with labeled
`mu`) — the call returns the decoded weight vector if and only if the solver
reports optimal status; under any other terminal status it returns the
no-solution indicator `None`, and it never raises. -/
theorem solve_result_contract (s : PortfolioState n)
    (hs : s.resultType = "numpy" ∨
      (s.resultType = "pandas" ∧ ∃ idx, s.index = some idx))
    (oracle : Oracle n) (expected_return max_risk gamma : ℚ)
    (mt mp fb fs cb cs ml ms : Option ℚ) (S : ℚ) (ih : Option (Vec n)) :
    ((oracle (minimize_risk_model s.covariance s.mu expected_return)).status =
          .optimal →
        ∃ r, convert_result s
            (oracle (minimize_risk_model s.covariance s.mu
              expected_return)).xVal = .ok r ∧
          minimize_risk_run s expected_return oracle = .ok (some r)) ∧
      ((oracle (minimize_risk_model s.covariance s.mu
          expected_return)).status ≠ .optimal →
        minimize_risk_run s expected_return oracle = .ok none) ∧
      ((oracle (maximize_return_model s.covariance s.mu max_risk)).status =
          .optimal →
        ∃ r, convert_result s
            (oracle (maximize_return_model s.covariance s.mu max_risk)).xVal =
            .ok r ∧
          maximize_return_run s max_risk oracle = .ok (some r)) ∧
      ((oracle (maximize_return_model s.covariance s.mu max_risk)).status ≠
          .optimal →
        maximize_return_run s max_risk oracle = .ok none) ∧
      ((oracle (efficient_portfolio_model s.covariance s.mu gamma mt mp fb fs
          cb cs ml ms S ih)).status = .optimal →
        ∃ r, convert_result s
            (oracle (efficient_portfolio_model s.covariance s.mu gamma mt mp
              fb fs cb cs ml ms S ih)).xVal = .ok r ∧
          efficient_portfolio_run s gamma mt mp fb fs cb cs ml ms S ih
            oracle = .ok (some r)) ∧
      ((oracle (efficient_portfolio_model s.covariance s.mu gamma mt mp fb fs
          cb cs ml ms S ih)).status ≠ .optimal →
        efficient_portfolio_run s gamma mt mp fb fs cb cs ml ms S ih oracle =
          .ok none) := by
  have hconv : ∀ xv : Vec n, ∃ r, convert_result s xv = .ok r := by
    intro xv
    rcases hs with h | ⟨h, idx, hi⟩
    · exact ⟨_, convert_result_numpy s h xv⟩
    · exact ⟨_, convert_result_pandas s h idx hi xv⟩
  refine ⟨?_, ?_, ?_, ?_, ?_, ?_⟩
  · intro hopt
    obtain ⟨r, hr⟩ := hconv _
    exact ⟨r, hr, runWith_optimal_ok _ _ _ hopt r hr⟩
  · intro hnon
    exact runWith_nonoptimal _ _ _ hnon
  · intro hopt
    obtain ⟨r, hr⟩ := hconv _
    exact ⟨r, hr, runWith_optimal_ok _ _ _ hopt r hr⟩
  · intro hnon
    exact runWith_nonoptimal _ _ _ hnon
  · intro hopt
    obtain ⟨r, hr⟩ := hconv _
    exact ⟨r, hr, runWith_optimal_ok _ _ _ hopt r hr⟩
  · intro hnon
    exact runWith_nonoptimal _ _ _ hnon

/-- C7 (witness): the amended contract at a concrete plain-mode instance and
an always-optimal solver. -/
theorem solve_result_contract_witness :
    ((oracleOpt (minimize_risk_model sPlain.covariance sPlain.mu 1)).status =
          .optimal →
        ∃ r, convert_result sPlain
            (oracleOpt (minimize_risk_model sPlain.covariance sPlain.mu
              1)).xVal = .ok r ∧
          minimize_risk_run sPlain 1 oracleOpt = .ok (some r)) ∧
      ((oracleOpt (minimize_risk_model sPlain.covariance sPlain.mu
          1)).status ≠ .optimal →
        minimize_risk_run sPlain 1 oracleOpt = .ok none) ∧
      ((oracleOpt (maximize_return_model sPlain.covariance sPlain.mu
          1)).status = .optimal →
        ∃ r, convert_result sPlain
            (oracleOpt (maximize_return_model sPlain.covariance
              sPlain.mu 1)).xVal = .ok r ∧
          maximize_return_run sPlain 1 oracleOpt = .ok (some r)) ∧
      ((oracleOpt (maximize_return_model sPlain.covariance sPlain.mu
          1)).status ≠ .optimal →
        maximize_return_run sPlain 1 oracleOpt = .ok none) ∧
      ((oracleOpt (efficient_portfolio_model sPlain.covariance sPlain.mu 0
          none none none none none none none none 0 none)).status =
          .optimal →
        ∃ r, convert_result sPlain
            (oracleOpt (efficient_portfolio_model sPlain.covariance sPlain.mu
              0 none none none none none none none none 0 none)).xVal =
            .ok r ∧
          efficient_portfolio_run sPlain 0 none none none none none none none
            none 0 none oracleOpt = .ok (some r)) ∧
      ((oracleOpt (efficient_portfolio_model sPlain.covariance sPlain.mu 0
          none none none none none none none none 0 none)).status ≠
          .optimal →
        efficient_portfolio_run sPlain 0 none none none none none none none
          none 0 none oracleOpt = .ok none) :=
  solve_result_contract sPlain (Or.inl rfl) oracleOpt 1 1 0
    none none none none none none none none 0 none

/-- C9: the solve methods are stateless: the formulation depends only on the
stored covariance and return vector (plus the call's arguments — two
instances agreeing on those fields build identical formulations); a method
call leaves the instance state unchanged; and an immediately repeated call
with identical parameters yields an identical result. -/
theorem solve_statelessness (s t : PortfolioState n)
    (hcov : s.covariance = t.covariance) (hmu : s.mu = t.mu)
    (expected_return max_risk gamma : ℚ)
    (mt mp fb fs cb cs ml ms : Option ℚ) (S : ℚ) (ih : Option (Vec n))
    (oracle : Oracle n) :
    minimize_risk_model s.covariance s.mu expected_return =
        minimize_risk_model t.covariance t.mu expected_return ∧
      maximize_return_model s.covariance s.mu max_risk =
        maximize_return_model t.covariance t.mu max_risk ∧
      efficient_portfolio_model s.covariance s.mu gamma mt mp fb fs cb cs ml
          ms S ih =
        efficient_portfolio_model t.covariance t.mu gamma mt mp fb fs cb cs
          ml ms S ih ∧
      (minimize_risk_call s expected_return oracle).2 = s ∧
      (maximize_return_call s max_risk oracle).2 = s ∧
      (efficient_portfolio_call s gamma mt mp fb fs cb cs ml ms S ih
        oracle).2 = s ∧
      minimize_risk_call (minimize_risk_call s expected_return oracle).2
          expected_return oracle =
        minimize_risk_call s expected_return oracle ∧
      maximize_return_call (maximize_return_call s max_risk oracle).2
          max_risk oracle =
        maximize_return_call s max_risk oracle ∧
      efficient_portfolio_call
          (efficient_portfolio_call s gamma mt mp fb fs cb cs ml ms S ih
            oracle).2
          gamma mt mp fb fs cb cs ml ms S ih oracle =
        efficient_portfolio_call s gamma mt mp fb fs cb cs ml ms S ih
          oracle := by
  rw [hcov, hmu]
  exact ⟨rfl, rfl, rfl, rfl, rfl, rfl, rfl, rfl, rfl⟩

/-- C9 (witness): statelessness at a concrete instance and solver. -/
theorem solve_statelessness_witness :
    minimize_risk_model sPlain.covariance sPlain.mu 1 =
        minimize_risk_model sPlain.covariance sPlain.mu 1 ∧
      maximize_return_model sPlain.covariance sPlain.mu 1 =
        maximize_return_model sPlain.covariance sPlain.mu 1 ∧
      efficient_portfolio_model sPlain.covariance sPlain.mu 0 none none none
          none none none none none 0 none =
        efficient_portfolio_model sPlain.covariance sPlain.mu 0 none none
          none none none none none none 0 none ∧
      (minimize_risk_call sPlain 1 oracleOpt).2 = sPlain ∧
      (maximize_return_call sPlain 1 oracleOpt).2 = sPlain ∧
      (efficient_portfolio_call sPlain 0 none none none none none none none
        none 0 none oracleOpt).2 = sPlain ∧
      minimize_risk_call (minimize_risk_call sPlain 1 oracleOpt).2 1
          oracleOpt =
        minimize_risk_call sPlain 1 oracleOpt ∧
      maximize_return_call (maximize_return_call sPlain 1 oracleOpt).2 1
          oracleOpt =
        maximize_return_call sPlain 1 oracleOpt ∧
      efficient_portfolio_call
          (efficient_portfolio_call sPlain 0 none none none none none none
            none none 0 none oracleOpt).2
          0 none none none none none none none none 0 none oracleOpt =
        efficient_portfolio_call sPlain 0 none none none none none none none
          none 0 none oracleOpt :=
  solve_statelessness sPlain sPlain rfl rfl 1 1 0 none none none none none
    none none none 0 none oracleOpt

/-- The length-2 vector `(a, b)`. -/
def pair2 (a b : ℚ) : Fin 2 → ℚ := fun i => if i.val = 0 then a else b

/-- A concrete assignment over 2 assets: fully invested in asset 0, no
shorting (`x_short = 0` everywhere), but with the short indicator
`b_short` set for asset 1. -/
def aShortFlag : Assign 2 :=
  ⟨fun k => match k with
    | .x => pair2 1 0
    | .xLong => pair2 1 0
    | .xShort => pair2 0 0
    | .xBuy => pair2 1 0
    | .xSell => pair2 0 0
    | .bLong => pair2 1 0
    | .bShort => pair2 0 1
    | .bBuy => pair2 1 0
    | .bSell => pair2 0 0⟩

theorem aShortFlag_feasible :
    Feasible aShortFlag
      (efficient_portfolio_model Sigma2 mu2 0 none none none none none none
        none none 0 none) := by
  rw [efficient_model_eq]
  constructor
  · intro d hd
    simp only [efficientVars] at hd
    fin_cases hd <;>
      refine ⟨fun _ i => ?_, fun _ i => ?_⟩ <;>
        fin_cases i <;> norm_num [aShortFlag, pair2]
  · intro c hc
    simp only [efficientConstrs, optConstr, investTerms, optTerm,
      List.append_nil, List.nil_append, Option.getD_none] at hc
    fin_cases hc <;>
      simp [Constr.sat, termsVal, aShortFlag, pair2, Fin.forall_fin_two,
        Fin.sum_univ_two]

/-- C3 (counterexample): contrary to the claim, `max_total_short = 0` does
not force `b_short = 0`: `aShortFlag` satisfies every constraint and bound of
the formulation (with all optional parameters absent) yet has
`b_short[1] = 1`. -/
theorem bShort_not_forced_zero_cex :
    Feasible aShortFlag
        (efficient_portfolio_model Sigma2 mu2 0 none none none none none
          none none none 0 none) ∧
      aShortFlag.vec .bShort 1 = 1 ∧ (1 : ℚ) ≠ 0 := by
  refine ⟨aShortFlag_feasible, rfl, by norm_num⟩

/-- C3 (amended): with `max_total_short = 0`, every feasible assignment of
the constructed formulation has `x_short = 0` for every asset (the big-M
bound collapses to `x_short ≤ 0` and the variable's lower bound is `0`), and
consequently every position `x` is nonnegative; the indicator `b_short` is
not itself forced to zero. -/
theorem no_short_when_max_total_short_zero (Sigma : Mat n) (mu : Vec n)
    (gamma : ℚ) (mt mp fb fs cb cs ml ms : Option ℚ) (ih : Option (Vec n))
    (a : Assign n)
    (hfeas : Feasible a (efficient_portfolio_model Sigma mu gamma mt mp fb fs
      cb cs ml ms 0 ih)) :
    (∀ i, a.vec .xShort i = 0) ∧ (∀ i, 0 ≤ a.vec .x i) := by
  rw [efficient_model_eq] at hfeas
  obtain ⟨hvars, hcons⟩ := hfeas
  have hxShort := hvars ⟨.xShort, .zero, .continuous⟩ (by simp [efficientVars])
  have hxLong := hvars ⟨.xLong, .zero, .continuous⟩ (by simp [efficientVars])
  have hvub : Constr.sat a (.vubLe .xShort 0 .bShort) :=
    hcons _ (by simp [efficientConstrs])
  have hdiff : Constr.sat a (.diffEq .x (fun _ => 0) .xLong .xShort) :=
    hcons _ (by simp [efficientConstrs])
  have hxs0 : ∀ i, a.vec .xShort i = 0 := by
    intro i
    have h1 : 0 ≤ a.vec .xShort i := hxShort.1 rfl i
    have h2 : a.vec .xShort i ≤ 0 * a.vec .bShort i := hvub i
    rw [zero_mul] at h2
    exact le_antisymm h2 h1
  refine ⟨hxs0, fun i => ?_⟩
  have h3 : a.vec .x i - 0 = a.vec .xLong i - a.vec .xShort i := hdiff i
  have h4 : 0 ≤ a.vec .xLong i := hxLong.1 rfl i
  have h5 := hxs0 i
  rw [sub_zero, h5, sub_zero] at h3
  rw [h3]
  exact h4

/-- C3 (witness): the amended statement at the concrete feasible
assignment. -/
theorem no_short_when_max_total_short_zero_witness :
    (∀ i, aShortFlag.vec .xShort i = 0) ∧ (∀ i, 0 ≤ aShortFlag.vec .x i) :=
  no_short_when_max_total_short_zero Sigma2 mu2 0 none none none none none
    none none none none aShortFlag aShortFlag_feasible

/-- Recognizer for the variable-upper-bound (big-M) constraint shape. -/
def Constr.isVubLe : Constr n → Bool
  | .vubLe _ _ _ => true
  | _ => false

/-- Recognizer for the indicator-exclusivity constraint shape. -/
def Constr.isPairLe : Constr n → Bool
  | .pairLe _ _ _ => true
  | _ => false

/-- C4: for every parameter combination, with `S = max_total_short` the
formulation of `efficient_portfolio` contains exactly the four big-M links
`x_long ≤ (1+S)·b_long`, `x_short ≤ S·b_short`, `x_buy ≤ (1+S)·b_buy`,
`x_sell ≤ (1+S)·b_sell` (no other constraint of that shape exists), exactly
the two exclusivity constraints `b_long + b_short ≤ 1` and
`b_buy + b_sell ≤ 1`, and the leverage cap `sum(x_short) ≤ S` — all
unconditionally. -/
theorem efficient_bigM_constraints_exact (Sigma : Mat n) (mu : Vec n)
    (gamma : ℚ) (mt mp fb fs cb cs ml ms : Option ℚ) (S : ℚ)
    (ih : Option (Vec n)) :
    (efficient_portfolio_model Sigma mu gamma mt mp fb fs cb cs ml ms S
          ih).constrs.filter (fun c => c.isVubLe) =
        [.vubLe .xLong (1 + S) .bLong, .vubLe .xShort S .bShort,
         .vubLe .xBuy (1 + S) .bBuy, .vubLe .xSell (1 + S) .bSell] ∧
      (efficient_portfolio_model Sigma mu gamma mt mp fb fs cb cs ml ms S
          ih).constrs.filter (fun c => c.isPairLe) =
        [.pairLe .bLong .bShort 1, .pairLe .bBuy .bSell 1] ∧
      Constr.sumsLe [.xShort] S ∈
        (efficient_portfolio_model Sigma mu gamma mt mp fb fs cb cs ml ms S
          ih).constrs := by
  rw [efficient_model_eq]
  refine ⟨?_, ?_, ?_⟩
  · cases mt <;> cases mp <;> cases ml <;> cases ms <;>
      simp [efficientConstrs, optConstr, Constr.isVubLe, Constr.isPairLe]
  · cases mt <;> cases mp <;> cases ml <;> cases ms <;>
      simp [efficientConstrs, optConstr, Constr.isVubLe, Constr.isPairLe]
  · simp [efficientConstrs]

/-- C5: for every parameter combination, the budget equality of
`efficient_portfolio` is the unique sum-equality constraint of the
formulation; its right-hand side is `1` and its terms are exactly `sum(x)`
plus one term per fee/cost parameter actually supplied, with the supplied
value as coefficient — a term whose parameter is absent does not appear at
all. -/
theorem efficient_budget_terms_exact (Sigma : Mat n) (mu : Vec n)
    (gamma : ℚ) (mt mp fb fs cb cs ml ms : Option ℚ) (S : ℚ)
    (ih : Option (Vec n)) :
    Constr.scalarEq (investTerms fb fs cb cs) 1 ∈
        (efficient_portfolio_model Sigma mu gamma mt mp fb fs cb cs ml ms S
          ih).constrs ∧
      (∀ T r, Constr.scalarEq T r ∈
          (efficient_portfolio_model Sigma mu gamma mt mp fb fs cb cs ml ms S
            ih).constrs →
        T = investTerms fb fs cb cs ∧ r = 1) ∧
      (∀ c v, (c, v) ∈ investTerms fb fs cb cs ↔
        (v = .x ∧ c = 1) ∨ (v = .bBuy ∧ fb = some c) ∨
          (v = .bSell ∧ fs = some c) ∨ (v = .xBuy ∧ cb = some c) ∨
          (v = .xSell ∧ cs = some c)) := by
  rw [efficient_model_eq]
  refine ⟨by simp [efficientConstrs], ?_, ?_⟩
  · intro T r hmem
    cases mt <;> cases mp <;> cases ml <;> cases ms <;>
      simp [efficientConstrs, optConstr] at hmem <;>
      exact ⟨hmem.1, hmem.2⟩
  · intro c v
    cases fb <;> cases fs <;> cases cb <;> cases cs <;>
      simp [investTerms, optTerm, Prod.mk.injEq] <;>
      aesop

/-- C5 (witness): the budget characterization at concrete parameters (fees
supplied, costs absent). -/
theorem efficient_budget_terms_exact_witness :
    Constr.scalarEq (investTerms (some (1/100)) (some (2/100)) none none) 1 ∈
        (efficient_portfolio_model Sigma2 mu2 1 (some 2) none (some (1/100))
          (some (2/100)) none none none none 0 none).constrs ∧
      (∀ T r, Constr.scalarEq T r ∈
          (efficient_portfolio_model Sigma2 mu2 1 (some 2) none
            (some (1/100)) (some (2/100)) none none none none 0
            none).constrs →
        T = investTerms (some (1/100)) (some (2/100)) none none ∧ r = 1) ∧
      (∀ c v, (c, v) ∈ investTerms (some (1/100)) (some (2/100)) none none ↔
        (v = .x ∧ c = 1) ∨ (v = .bBuy ∧ some (1/100) = some c) ∨
          (v = .bSell ∧ some (2/100) = some c) ∨
          (v = .xBuy ∧ (none : Option ℚ) = some c) ∨
          (v = .xSell ∧ (none : Option ℚ) = some c)) :=
  efficient_budget_terms_exact Sigma2 mu2 1 (some 2) none (some (1/100))
    (some (2/100)) none none none none 0 none

/-- C6: each of the four conditional constraints — the trade cap, the
position cap, the minimum-buy link and the minimum-sell link — is in the
formulation if and only if the corresponding parameter was supplied (with
exactly the supplied bound); an absent parameter contributes no constraint
at all. -/
theorem efficient_conditional_constraints_iff (Sigma : Mat n) (mu : Vec n)
    (gamma : ℚ) (mt mp fb fs cb cs ml ms : Option ℚ) (S : ℚ)
    (ih : Option (Vec n)) :
    (∀ k, Constr.sumsLe [.bBuy, .bSell] k ∈
        (efficient_portfolio_model Sigma mu gamma mt mp fb fs cb cs ml ms S
          ih).constrs ↔ mt = some k) ∧
      (∀ k, Constr.sumsLe [.bLong, .bShort] k ∈
        (efficient_portfolio_model Sigma mu gamma mt mp fb fs cb cs ml ms S
          ih).constrs ↔ mp = some k) ∧
      (∀ c, Constr.vlbGe .xBuy c .bBuy ∈
        (efficient_portfolio_model Sigma mu gamma mt mp fb fs cb cs ml ms S
          ih).constrs ↔ ml = some c) ∧
      (∀ c, Constr.vlbGe .xSell c .bSell ∈
        (efficient_portfolio_model Sigma mu gamma mt mp fb fs cb cs ml ms S
          ih).constrs ↔ ms = some c) := by
  rw [efficient_model_eq]
  refine ⟨?_, ?_, ?_, ?_⟩ <;> intro k <;>
    cases mt <;> cases mp <;> cases ml <;> cases ms <;>
      simp [efficientConstrs, optConstr, eq_comm]

/-- C6 (witness): the conditional-constraint equivalences at concrete
parameters (`max_trades` and `min_long` supplied, the others absent). -/
theorem efficient_conditional_constraints_iff_witness :
    (∀ k, Constr.sumsLe [.bBuy, .bSell] k ∈
        (efficient_portfolio_model Sigma2 mu2 1 (some 2) none none none none
          none (some (1/10)) none 0 none).constrs ↔ some 2 = some k) ∧
      (∀ k, Constr.sumsLe [.bLong, .bShort] k ∈
        (efficient_portfolio_model Sigma2 mu2 1 (some 2) none none none none
          none (some (1/10)) none 0 none).constrs ↔
          (none : Option ℚ) = some k) ∧
      (∀ c, Constr.vlbGe .xBuy c .bBuy ∈
        (efficient_portfolio_model Sigma2 mu2 1 (some 2) none none none none
          none (some (1/10)) none 0 none).constrs ↔ some (1/10) = some c) ∧
      (∀ c, Constr.vlbGe .xSell c .bSell ∈
        (efficient_portfolio_model Sigma2 mu2 1 (some 2) none none none none
          none (some (1/10)) none 0 none).constrs ↔
          (none : Option ℚ) = some c) :=
  efficient_conditional_constraints_iff Sigma2 mu2 1 (some 2) none none none
    none none (some (1/10)) none 0 none

end Portfolio
